import Mathlib

/-!
Verification of the physics core of the `physic` repository
(`src/physics/objects.py`, `src/physics/constraints.py`, `src/physics/simulator.py`).

Modelling decisions, common to all definitions below:

* Python floats are modelled by `ℚ` (every numeric literal in the source is an
  exact decimal, and no claim is about rounding).
* `math.sqrt` is threaded through as an explicit oracle `sq : ℚ → ℚ`; Python's
  `math.sqrt` never raises on the (non-negative) arguments the code feeds it, so
  totality is unaffected.  Theorems whose content depends on the value of a
  square root hypothesise the oracle's value at the points used; concrete
  evaluations use `ratSqrt`, which is exact on perfect squares.
* Operations that can raise in Python are modelled with `Except Unit`:
  `1/(2*area)` with `area == 0.0` in `Triangle.contains_point`,
  `rel_x / self.width` with `width == 0.0` in `Ramp.contains_point`,
  `obj2.mass / total_mass` with `total_mass == 0.0` in
  `PhysicsSimulator._correct_position_overlap`, and the simulator's zero-argument
  call `constraint.apply()` reaching `FloorConstraint.apply(self, objects)`
  (a `TypeError`: missing positional argument `objects`).
* Every `PhysicsObject` carries `position/mass/velocity/acceleration/friction/
  restitution` from the base-class `__init__`, so the source's
  `hasattr(obj, 'velocity')`-style guards on those attributes always succeed and
  are dropped.  The `fixed` and `no_collision` attributes are set dynamically by
  the UI (`context_menu.py`); every guard in the core reads them as
  `hasattr(obj, a) and obj.a`, which is modelled by `Bool` fields defaulting to
  `false`.  `hasattr(obj, 'contains_point')` and `hasattr(obj, 'get_bounding_box')`
  always succeed (base-class methods), so those guards are dropped as well.
* Constraints hold references to body objects; bodies live in the simulator's
  list, so references are modelled as indices into that list.  An index outside
  the list models a constraint whose body is not (or no longer) in the
  simulator: the Python code would mutate an unlisted object, which is invisible
  to the simulator state, hence a no-op here.
* Fields of the source never read by any modelled operation are omitted:
  `color`, `Spring.{k, rest_length, coils}` and `Rope.{segments, points, length}`
  (their `contains_point`/`get_bounding_box` are the base-class defaults),
  `Ramp.{angle, vertices}` (only used by `draw`/`get_normal_force`), and all
  `draw`/screen-coordinate methods.
-/

namespace Physic

abbrev Vec2 := ℚ × ℚ

/-- Shape data of the six concrete `PhysicsObject` subclasses.  Triangle vertices
are offsets relative to its position, as in `Triangle.__init__`. -/
inductive Shape where
  | box (width height : ℚ)
  | circle (radius : ℚ)
  | triangle (v0 v1 v2 : Vec2)
  | spring
  | rope
  | ramp (width height : ℚ)
deriving DecidableEq

/-- Kinematic state shared by all bodies (`PhysicsObject.__init__`) plus the
dynamically attached `fixed` / `no_collision` flags and the per-kind shape. -/
structure PhysicsObject where
  position : Vec2
  mass : ℚ
  velocity : Vec2
  acceleration : Vec2
  friction : ℚ
  restitution : ℚ
  fixed : Bool
  no_collision : Bool
  shape : Shape
deriving DecidableEq

/-- `PhysicsObject.update(dt)`: semi-implicit Euler; the velocity is updated
first and the new velocity advances the position. -/
def PhysicsObject.update (dt : ℚ) (b : PhysicsObject) : PhysicsObject :=
  let vx := b.velocity.1 + b.acceleration.1 * dt
  let vy := b.velocity.2 + b.acceleration.2 * dt
  let x := b.position.1 + vx * dt
  let y := b.position.2 + vy * dt
  { b with velocity := (vx, vy), position := (x, y) }

/-- Signed-area expression of `Triangle.contains_point`:
`area = 0.5 * (-p1y*p2x + p0y*(-p1x + p2x) + p0x*(p1y - p2y) + p1x*p2y)`. -/
def triangleArea (p0 p1 p2 : Vec2) : ℚ :=
  (1/2) * (-p1.2 * p2.1 + p0.2 * (-p1.1 + p2.1) + p0.1 * (p1.2 - p2.2) + p1.1 * p2.2)

/-- `contains_point(x, y)` of each subclass; the base-class default (used by
Spring and Rope) returns `False`.  `none` models a raised `ZeroDivisionError`:
`Triangle.contains_point` divides by `2*area` with no zero-area guard, and
`Ramp.contains_point` divides by `self.width` after its rectangle guard. -/
def PhysicsObject.contains_point (b : PhysicsObject) (x y : ℚ) : Option Bool :=
  match b.shape with
  | .box w h =>
      some (decide (|x - b.position.1| ≤ w / 2 ∧ |y - b.position.2| ≤ h / 2))
  | .circle r =>
      let dx := x - b.position.1
      let dy := y - b.position.2
      some (decide (dx * dx + dy * dy ≤ r * r))
  | .triangle v0 v1 v2 =>
      let p0 : Vec2 := (b.position.1 + v0.1, b.position.2 + v0.2)
      let p1 : Vec2 := (b.position.1 + v1.1, b.position.2 + v1.2)
      let p2 : Vec2 := (b.position.1 + v2.1, b.position.2 + v2.2)
      let area := triangleArea p0 p1 p2
      if area = 0 then none
      else
        let s := 1 / (2 * area) * (p0.2 * p2.1 - p0.1 * p2.2 + (p2.2 - p0.2) * x + (p0.1 - p2.1) * y)
        let t := 1 / (2 * area) * (p0.1 * p1.2 - p0.2 * p1.1 + (p0.2 - p1.2) * x + (p1.1 - p0.1) * y)
        some (decide (s ≥ 0 ∧ t ≥ 0 ∧ 1 - s - t ≥ 0))
  | .spring => some false
  | .rope => some false
  | .ramp w h =>
      let rx := x - b.position.1
      let ry := y - b.position.2
      if rx < 0 ∨ rx > w ∨ ry < 0 ∨ ry > h then some false
      else if w = 0 then none
      else some (decide (ry ≤ h * (1 - rx / w)))

/-- Bounding box `(min_x, min_y, max_x, max_y)`. -/
structure BBox where
  minX : ℚ
  minY : ℚ
  maxX : ℚ
  maxY : ℚ
deriving DecidableEq

/-- `get_bounding_box()` of each subclass.  Spring, Rope and Ramp do not
override the base-class method, which returns `(0, 0, 0, 0)`. -/
def PhysicsObject.get_bounding_box (b : PhysicsObject) : BBox :=
  match b.shape with
  | .box w h =>
      ⟨b.position.1 - w / 2, b.position.2 - h / 2, b.position.1 + w / 2, b.position.2 + h / 2⟩
  | .circle r =>
      ⟨b.position.1 - r, b.position.2 - r, b.position.1 + r, b.position.2 + r⟩
  | .triangle v0 v1 v2 =>
      let xs := (b.position.1 + v0.1, b.position.1 + v1.1, b.position.1 + v2.1)
      let ys := (b.position.2 + v0.2, b.position.2 + v1.2, b.position.2 + v2.2)
      ⟨min xs.1 (min xs.2.1 xs.2.2), min ys.1 (min ys.2.1 ys.2.2),
       max xs.1 (max xs.2.1 xs.2.2), max ys.1 (max ys.2.1 ys.2.2)⟩
  | _ => ⟨0, 0, 0, 0⟩

/-- Whether `hasattr(obj, 'width') and hasattr(obj, 'height')` holds: only Box
and Ramp define both (Spring and Rope have `width` but no `height`). -/
def PhysicsObject.hasWidthHeight (b : PhysicsObject) : Bool :=
  match b.shape with
  | .box _ _ => true
  | .ramp _ _ => true
  | _ => false

/-- Whether `hasattr(obj, 'radius')` holds: only Circle defines it. -/
def PhysicsObject.hasRadius (b : PhysicsObject) : Bool :=
  match b.shape with
  | .circle _ => true
  | _ => false

/-- The `radius` attribute where it exists (read only under `hasRadius`). -/
def PhysicsObject.radius (b : PhysicsObject) : ℚ :=
  match b.shape with
  | .circle r => r
  | _ => 0

/-- The `(width, height)` attribute pair where both exist (read only under
`hasWidthHeight`). -/
def PhysicsObject.widthHeight (b : PhysicsObject) : ℚ × ℚ :=
  match b.shape with
  | .box w h => (w, h)
  | .ramp w h => (w, h)
  | _ => (0, 0)

/-- Instantiation of the `math.sqrt` oracle for the concrete runs below.  It
agrees with the exact square root on every value those runs feed it (4, 16,
9/100 and 1/100, all perfect squares of rationals); no concrete run below
reaches the default 0 branch. -/
def sqrtValues : ℚ → ℚ := fun q =>
  if q = 4 then 2
  else if q = 16 then 4
  else if q = 9/100 then 3/10
  else if q = 1/100 then 1/10
  else 0

/-- The five constraint classes of `constraints.py`, with the parameters their
`apply` methods read.  Body references are indices into the simulator's object
list.  `pinJoint` stores `pivot_point` and the initial distances `distance1`,
`distance2` (its `relative_pos1/2` fields are never read by `apply`).  `floor`
stores `floor_y` and `restitution`; its `apply(self, objects)` signature breaks
the base-class `apply(self)` interface the simulator's loop calls. -/
inductive Constraint where
  | fixedPosition (enabled : Bool) (i : ℕ) (target : Vec2)
  | distance (enabled : Bool) (i j : ℕ) (target : ℚ)
  | pinJoint (enabled : Bool) (i j : ℕ) (pivot : Vec2) (d1 d2 : ℚ)
  | spring (enabled : Bool) (i j : ℕ) (k rest_length : ℚ)
  | floor (enabled : Bool) (floor_y restitution : ℚ)
deriving DecidableEq

/-- One `constraint.apply()` call as made by `PhysicsSimulator._update_physics`.
The simulator calls `apply()` with no arguments; `FloorConstraint.apply` requires
a positional `objects` argument, so that call raises `TypeError` before the
`enabled` flag is even consulted — modelled by `.error ()`.  All other variants
follow their `apply` bodies; writes are sequential (`object1` first), re-reading
the list between writes to model in-place mutation of shared objects. -/
def applyConstraint (sq : ℚ → ℚ) (objs : List PhysicsObject) :
    Constraint → Except Unit (List PhysicsObject)
  | .fixedPosition enabled i target =>
      if ¬enabled then .ok objs
      else
        match objs[i]? with
        | some o => .ok (objs.set i { o with position := target, velocity := (0, 0) })
        | none => .ok objs
  | .distance enabled i j target =>
      if ¬enabled then .ok objs
      else
        match objs[i]?, objs[j]? with
        | some o1, some o2 =>
          let dx := o2.position.1 - o1.position.1
          let dy := o2.position.2 - o1.position.2
          let current_distance := sq (dx * dx + dy * dy)
          if current_distance = 0 then .ok objs
          else
            let correction_factor := (target - current_distance) / current_distance
            let correction_x := dx * correction_factor * (1/2)
            let correction_y := dy * correction_factor * (1/2)
            let total_mass := o1.mass + o2.mass
            if total_mass > 0 then
              let mass_ratio1 := o2.mass / total_mass
              let mass_ratio2 := o1.mass / total_mass
              .ok ((objs.set i
                { o1 with position := (o1.position.1 - correction_x * mass_ratio1,
                                       o1.position.2 - correction_y * mass_ratio1) }).set j
                { o2 with position := (o2.position.1 + correction_x * mass_ratio2,
                                       o2.position.2 + correction_y * mass_ratio2) })
            else .ok objs
        | _, _ => .ok objs
  | .pinJoint enabled i j pivot d1 d2 =>
      if ¬enabled then .ok objs
      else
        match objs[i]?, objs[j]? with
        | some o1, some o2 =>
          let rel1 : Vec2 := (o1.position.1 - pivot.1, o1.position.2 - pivot.2)
          let rel2 : Vec2 := (o2.position.1 - pivot.1, o2.position.2 - pivot.2)
          let current_distance1 := sq (rel1.1 ^ 2 + rel1.2 ^ 2)
          let current_distance2 := sq (rel2.1 ^ 2 + rel2.2 ^ 2)
          if current_distance1 = 0 ∨ current_distance2 = 0 then .ok objs
          else
            let target_pos1 : Vec2 := (pivot.1 + rel1.1 / current_distance1 * d1,
                                       pivot.2 + rel1.2 / current_distance1 * d1)
            let target_pos2 : Vec2 := (pivot.1 + rel2.1 / current_distance2 * d2,
                                       pivot.2 + rel2.2 / current_distance2 * d2)
            .ok ((objs.set i { o1 with position := target_pos1 }).set j
                  { o2 with position := target_pos2 })
        | _, _ => .ok objs
  | .spring enabled i j k rest_length =>
      if ¬enabled then .ok objs
      else
        match objs[i]?, objs[j]? with
        | some o1, some o2 =>
          let dx := o2.position.1 - o1.position.1
          let dy := o2.position.2 - o1.position.2
          let dist := sq (dx * dx + dy * dy)
          if dist = 0 then .ok objs
          else
            let force_magnitude := k * (dist - rest_length)
            let force_x := force_magnitude * dx / dist
            let force_y := force_magnitude * dy / dist
            let objsA :=
              if o1.mass > 0 then
                objs.set i { o1 with velocity := (o1.velocity.1 + force_x / o1.mass,
                                                  o1.velocity.2 + force_y / o1.mass) }
              else objs
            match objsA[j]? with
            | some o2b =>
              if o2b.mass > 0 then
                .ok (objsA.set j { o2b with velocity := (o2b.velocity.1 - force_x / o2b.mass,
                                                         o2b.velocity.2 - force_y / o2b.mass) })
              else .ok objsA
            | none => .ok objsA
        | _, _ => .ok objs
  | .floor _ _ _ => .error ()

/-- The constraint loop of `_update_physics`, in insertion order. -/
def runConstraints (sq : ℚ → ℚ) : List Constraint → List PhysicsObject →
    Except Unit (List PhysicsObject)
  | [], objs => .ok objs
  | c :: cs, objs =>
      match applyConstraint sq objs c with
      | .error e => .error e
      | .ok objs1 => runConstraints sq cs objs1

/-- `PhysicsSimulator._check_collision`: bounding-box rejection, then an exact
circle-circle test when both bodies have a `radius`; any other surviving pair
counts as colliding. -/
def check_collision (o1 o2 : PhysicsObject) : Bool :=
  let b1 := o1.get_bounding_box
  let b2 := o2.get_bounding_box
  if b1.minX > b2.maxX ∨ b1.maxX < b2.minX ∨ b1.minY > b2.maxY ∨ b1.maxY < b2.minY then false
  else if o1.hasRadius ∧ o2.hasRadius then
    let dx := o2.position.1 - o1.position.1
    let dy := o2.position.2 - o1.position.2
    let min_distance := o1.radius + o2.radius
    decide (dx * dx + dy * dy ≤ min_distance * min_distance)
  else true

/-- `PhysicsSimulator._get_collision_normal`.  For two bodies with both `width`
and `height` the axis of minimum directional penetration is chosen (ties broken
in the source's `if/elif` order left, right, top, bottom); otherwise the
normalised centre-to-centre vector, with the near-zero-distance tie-break of the
source. -/
def get_collision_normal (sq : ℚ → ℚ) (o1 o2 : PhysicsObject) : Vec2 :=
  if o1.hasWidthHeight ∧ o2.hasWidthHeight then
    let b1 := o1.get_bounding_box
    let b2 := o2.get_bounding_box
    let left_depth := b2.maxX - b1.minX
    let right_depth := b1.maxX - b2.minX
    let top_depth := b2.maxY - b1.minY
    let bottom_depth := b1.maxY - b2.minY
    if left_depth ≤ right_depth ∧ left_depth ≤ top_depth ∧ left_depth ≤ bottom_depth then (-1, 0)
    else if right_depth ≤ top_depth ∧ right_depth ≤ bottom_depth then (1, 0)
    else if top_depth ≤ bottom_depth then (0, -1)
    else (0, 1)
  else
    let dx := o2.position.1 - o1.position.1
    let dy := o2.position.2 - o1.position.2
    let dist := sq (dx * dx + dy * dy)
    if dist < 1/10000 then
      if o1.position.2 > o2.position.2 then (0, 1)
      else if o1.position.2 < o2.position.2 then (0, -1)
      else if o1.position.1 < o2.position.1 then (1, 0)
      else (-1, 0)
    else (dx / dist, dy / dist)

/-- `PhysicsSimulator._resolve_collision`: impulse response along the normal.
The `hasattr(velocity)` guard always succeeds and is dropped.  Effective masses
are zeroed for `fixed` bodies; separating pairs (`vn > 0`) and pairs with both
effective masses `≤ 0` are left unchanged. -/
def resolve_collision (sq : ℚ → ℚ) (o1 o2 : PhysicsObject) :
    PhysicsObject × PhysicsObject :=
  let restitution := min o1.restitution o2.restitution
  let n := get_collision_normal sq o1 o2
  let vx := o2.velocity.1 - o1.velocity.1
  let vy := o2.velocity.2 - o1.velocity.2
  let vn := vx * n.1 + vy * n.2
  if vn > 0 then (o1, o2)
  else
    let m1 := if o1.fixed then 0 else o1.mass
    let m2 := if o2.fixed then 0 else o2.mass
    if m1 ≤ 0 ∧ m2 ≤ 0 then (o1, o2)
    else if m1 ≤ 0 then
      let impulse := -(1 + restitution) * vn * m2
      (o1, { o2 with velocity := (o2.velocity.1 + impulse * n.1 / m2,
                                  o2.velocity.2 + impulse * n.2 / m2) })
    else if m2 ≤ 0 then
      let impulse := -(1 + restitution) * vn * m1
      ({ o1 with velocity := (o1.velocity.1 - impulse * n.1 / m1,
                              o1.velocity.2 - impulse * n.2 / m1) }, o2)
    else
      let reduced_mass := m1 * m2 / (m1 + m2)
      let impulse := -(1 + restitution) * vn * reduced_mass
      ({ o1 with velocity := (o1.velocity.1 - impulse * n.1 / m1,
                              o1.velocity.2 - impulse * n.2 / m1) },
       { o2 with velocity := (o2.velocity.1 + impulse * n.1 / m2,
                              o2.velocity.2 + impulse * n.2 / m2) })

/-- The overlap computation inside `_correct_position_overlap`, depending on
the collision normal `n` computed just before it.  The source selects
`min(left, right)` for `nx > 0` and `min(right, left)` otherwise (and likewise
for top/bottom); `min` is symmetric, so the two arms coincide and are written
once here. -/
def overlapAmount (sq : ℚ → ℚ) (n : Vec2) (o1 o2 : PhysicsObject) : ℚ :=
  if o1.hasRadius ∧ o2.hasRadius then
    let dx := o2.position.1 - o1.position.1
    let dy := o2.position.2 - o1.position.2
    o1.radius + o2.radius - sq (dx * dx + dy * dy)
  else if o1.hasWidthHeight ∧ o2.hasWidthHeight then
    let b1 := o1.get_bounding_box
    let b2 := o2.get_bounding_box
    let left_overlap := b2.maxX - b1.minX
    let right_overlap := b1.maxX - b2.minX
    let top_overlap := b2.maxY - b1.minY
    let bottom_overlap := b1.maxY - b2.minY
    if |n.1| > |n.2| then min left_overlap right_overlap
    else min top_overlap bottom_overlap
  else
    let dx := o2.position.1 - o1.position.1
    let dy := o2.position.2 - o1.position.2
    let dist := sq (dx * dx + dy * dy)
    let size1 := if o1.hasRadius then o1.radius
      else if o1.hasWidthHeight then (o1.widthHeight.1 + o1.widthHeight.2) / 4 else 1/2
    let size2 := if o2.hasRadius then o2.radius
      else if o2.hasWidthHeight then (o2.widthHeight.1 + o2.widthHeight.2) / 4 else 1/2
    size1 + size2 - dist

/-- `PhysicsSimulator._correct_position_overlap`.  The `hasattr(position)` guard
always succeeds and is dropped.  In the both-movable branch the source divides
by `total_mass` with no zero guard; `total_mass == 0` (two overlapping
non-fixed massless bodies) raises `ZeroDivisionError`, modelled by `.error ()`. -/
def correct_position_overlap (sq : ℚ → ℚ) (o1 o2 : PhysicsObject) :
    Except Unit (PhysicsObject × PhysicsObject) :=
  if o1.fixed ∧ o2.fixed then .ok (o1, o2)
  else
    let n := get_collision_normal sq o1 o2
    let overlap := overlapAmount sq n o1 o2
    if overlap > 0 then
      let correction := overlap * (101/100)
      if o1.fixed then
        .ok (o1, { o2 with position := (o2.position.1 + n.1 * correction,
                                        o2.position.2 + n.2 * correction) })
      else if o2.fixed then
        .ok ({ o1 with position := (o1.position.1 - n.1 * correction,
                                    o1.position.2 - n.2 * correction) }, o2)
      else
        let total_mass := o1.mass + o2.mass
        if total_mass = 0 then .error ()
        else
          let ratio1 := o2.mass / total_mass
          let ratio2 := o1.mass / total_mass
          .ok ({ o1 with position := (o1.position.1 - n.1 * correction * ratio1,
                                      o1.position.2 - n.2 * correction * ratio1) },
               { o2 with position := (o2.position.1 + n.1 * correction * ratio2,
                                      o2.position.2 + n.2 * correction * ratio2) })
    else .ok (o1, o2)

/-- One iteration of the pair loop in `_handle_collisions` for the pair of
indices `p`: skip when either body opts out of collisions (the
`hasattr(contains_point)` guard always succeeds and is dropped), otherwise
detect, resolve and positionally correct, writing both bodies back. -/
def pairStep (sq : ℚ → ℚ) (objs : List PhysicsObject) (p : ℕ × ℕ) :
    Except Unit (List PhysicsObject) :=
  match objs[p.1]?, objs[p.2]? with
  | some o1, some o2 =>
      if o1.no_collision ∨ o2.no_collision then .ok objs
      else if check_collision o1 o2 then
        let r := resolve_collision sq o1 o2
        match correct_position_overlap sq r.1 r.2 with
        | .error e => .error e
        | .ok c => .ok ((objs.set p.1 c.1).set p.2 c.2)
      else .ok objs
  | _, _ => .ok objs

/-- All index pairs `(i, j)` with `i < j < n`, in the order of the source's
nested loops. -/
def allPairs (n : ℕ) : List (ℕ × ℕ) :=
  (List.range n).flatMap fun i =>
    ((List.range n).filter fun j => decide (i < j)).map fun j => (i, j)

/-- Folding `pairStep` over a pair list, propagating a raised exception. -/
def runPairs (sq : ℚ → ℚ) : List (ℕ × ℕ) → List PhysicsObject →
    Except Unit (List PhysicsObject)
  | [], objs => .ok objs
  | p :: ps, objs =>
      match pairStep sq objs p with
      | .error e => .error e
      | .ok objs1 => runPairs sq ps objs1

/-- `PhysicsSimulator._handle_collisions`: the O(n²) pair loop. -/
def handleCollisions (sq : ℚ → ℚ) (objs : List PhysicsObject) :
    Except Unit (List PhysicsObject) :=
  runPairs sq (allPairs objs.length) objs

/-- The per-body step of the integration loop in `_update_physics`: fixed
bodies are skipped entirely; gravity is added into the acceleration of bodies
with `mass > 0` (the `hasattr(mass)` guard always succeeds); then
`obj.update(dt)` advances the body. -/
def integrateBody (gravity : Vec2) (dt : ℚ) (b : PhysicsObject) : PhysicsObject :=
  if b.fixed then b
  else
    let b1 :=
      if 0 < b.mass then
        { b with acceleration := (b.acceleration.1 + gravity.1, b.acceleration.2 + gravity.2) }
      else b
    PhysicsObject.update dt b1

/-- `PhysicsSimulator` state (`__init__`). -/
structure PhysicsSimulator where
  objects : List PhysicsObject
  gravity : Vec2
  simulation_time : ℚ
  is_running : Bool
  time_scale : ℚ
  last_update_time : Option ℚ
  collision_detection_enabled : Bool
  constraints : List Constraint
deriving DecidableEq

/-- `PhysicsSimulator.__init__`: empty scene, gravity `(0, -9.8)`, stopped,
unit time scale, no recorded clock, collision detection on, no constraints. -/
def initSimulator : PhysicsSimulator :=
  { objects := [], gravity := (0, -49/5), simulation_time := 0, is_running := false,
    time_scale := 1, last_update_time := none, collision_detection_enabled := true,
    constraints := [] }

/-- `PhysicsSimulator._update_physics(dt)`: integrate every body, apply every
constraint in insertion order, then (if enabled) the collision pipeline. -/
def updatePhysics (sq : ℚ → ℚ) (dt : ℚ) (s : PhysicsSimulator) :
    Except Unit (List PhysicsObject) :=
  let objs1 := s.objects.map (integrateBody s.gravity dt)
  match runConstraints sq s.constraints objs1 with
  | .error e => .error e
  | .ok objs2 =>
      if s.collision_detection_enabled then handleCollisions sq objs2 else .ok objs2

/-- `PhysicsSimulator.update()`.  `time.time()` is passed in as `current_time`.
Returns the pair `(dt, new state)`, or `.error` when the step raises. -/
def PhysicsSimulator.update (sq : ℚ → ℚ) (current_time : ℚ) (s : PhysicsSimulator) :
    Except Unit (ℚ × PhysicsSimulator) :=
  if s.is_running = false then .ok (0, s)
  else
    match s.last_update_time with
    | none => .ok (0, { s with last_update_time := some current_time })
    | some t =>
        let elapsed_time := current_time - t
        let dt := elapsed_time * s.time_scale
        let s1 := { s with last_update_time := some current_time,
                           simulation_time := s.simulation_time + dt }
        match updatePhysics sq dt s1 with
        | .error e => .error e
        | .ok objs2 => .ok (dt, { s1 with objects := objs2 })

/-- `PhysicsSimulator.start()`: set running and record the wall clock. -/
def PhysicsSimulator.start (current_time : ℚ) (s : PhysicsSimulator) : PhysicsSimulator :=
  { s with is_running := true, last_update_time := some current_time }

/-- `PhysicsSimulator.clear_objects()`. -/
def PhysicsSimulator.clear_objects (s : PhysicsSimulator) : PhysicsSimulator :=
  { s with objects := [], simulation_time := 0 }

/-- Scan of `get_object_at` over the already-reversed body list; the
`hasattr(contains_point)` guard always succeeds and is dropped.  A raised
`ZeroDivisionError` inside `contains_point` aborts the whole call. -/
def getObjectAtAux (x y : ℚ) : List PhysicsObject → Except Unit (Option PhysicsObject)
  | [] => .ok none
  | o :: rest =>
      match o.contains_point x y with
      | none => .error ()
      | some true => .ok (some o)
      | some false => getObjectAtAux x y rest

/-- `PhysicsSimulator.get_object_at(x, y)`: scan bodies in reverse insertion
order, return the first containing one. -/
def PhysicsSimulator.get_object_at (s : PhysicsSimulator) (x y : ℚ) :
    Except Unit (Option PhysicsObject) :=
  getObjectAtAux x y s.objects.reverse

/-- Modelled from the spec: "return the most-recently-added body whose
`containsPoint` holds".  Used as the specification side of the `get_object_at`
refinement. -/
def topmostContaining (objs : List PhysicsObject) (x y : ℚ) : Option PhysicsObject :=
  objs.reverse.find? fun o => o.contains_point x y == some true

/-- Iterated `update()` calls at the given sequence of wall-clock times,
propagating a raised exception. -/
def updateMany (sq : ℚ → ℚ) : List ℚ → PhysicsSimulator → Except Unit PhysicsSimulator
  | [], s => .ok s
  | t :: ts, s =>
      match PhysicsSimulator.update sq t s with
      | .error e => .error e
      | .ok r => updateMany sq ts r.2

/-! ### Which fields each phase can write

`KinOnly b b'` says `b'` differs from `b` at most in `position`/`velocity` —
the footprint of every constraint's `apply` and of the collision pipeline.
`FixRel` additionally records that a `fixed` body's position is untouched,
which holds for the collision pipeline (but not for constraints). -/

def KinOnly (b b' : PhysicsObject) : Prop :=
  b'.mass = b.mass ∧ b'.acceleration = b.acceleration ∧ b'.fixed = b.fixed ∧
  b'.shape = b.shape ∧ b'.no_collision = b.no_collision ∧
  b'.restitution = b.restitution ∧ b'.friction = b.friction

theorem kinOnly_refl (b : PhysicsObject) : KinOnly b b :=
  ⟨rfl, rfl, rfl, rfl, rfl, rfl, rfl⟩

theorem kinOnly_trans {a b c : PhysicsObject} (h1 : KinOnly a b) (h2 : KinOnly b c) :
    KinOnly a c := by
  obtain ⟨e1, e2, e3, e4, e5, e6, e7⟩ := h1
  obtain ⟨f1, f2, f3, f4, f5, f6, f7⟩ := h2
  exact ⟨f1.trans e1, f2.trans e2, f3.trans e3, f4.trans e4, f5.trans e5, f6.trans e6, f7.trans e7⟩

def FixRel (b b' : PhysicsObject) : Prop :=
  KinOnly b b' ∧ (b.fixed = true → b'.position = b.position)

theorem fixRel_refl (b : PhysicsObject) : FixRel b b := ⟨kinOnly_refl b, fun _ => rfl⟩

theorem fixRel_trans {a b c : PhysicsObject} (h1 : FixRel a b) (h2 : FixRel b c) :
    FixRel a c := by
  refine ⟨kinOnly_trans h1.1 h2.1, fun hf => ?_⟩
  have hb : b.fixed = true := h1.1.2.2.1 ▸ hf
  exact (h2.2 hb).trans (h1.2 hf)

/-- Pointwise relation between the body lists before and after a phase. -/
def ListRel (R : PhysicsObject → PhysicsObject → Prop) (l l' : List PhysicsObject) : Prop :=
  l.length = l'.length ∧
    ∀ (k : ℕ) (b b' : PhysicsObject), l[k]? = some b → l'[k]? = some b' → R b b'

theorem listRel_refl {R : PhysicsObject → PhysicsObject → Prop} (h : ∀ b, R b b)
    (l : List PhysicsObject) : ListRel R l l := by
  refine ⟨rfl, fun k b b' h1 h2 => ?_⟩
  rw [h1] at h2
  cases h2
  exact h b

theorem ListRel.get {R : PhysicsObject → PhysicsObject → Prop} {l l' : List PhysicsObject}
    {k : ℕ} {b : PhysicsObject} (h : ListRel R l l') (hk : l[k]? = some b) :
    ∃ b', l'[k]? = some b' ∧ R b b' := by
  obtain ⟨hlen, hrel⟩ := h
  obtain ⟨hklt, -⟩ := List.getElem?_eq_some.mp hk
  have hklt' : k < l'.length := hlen ▸ hklt
  exact ⟨l'[k], List.getElem?_eq_getElem hklt', hrel k b _ hk (List.getElem?_eq_getElem hklt')⟩

theorem listRel_trans {R : PhysicsObject → PhysicsObject → Prop}
    (ht : ∀ a b c, R a b → R b c → R a c) {l1 l2 l3 : List PhysicsObject}
    (h12 : ListRel R l1 l2) (h23 : ListRel R l2 l3) : ListRel R l1 l3 := by
  refine ⟨h12.1.trans h23.1, fun k b1 b3 h1 h3 => ?_⟩
  obtain ⟨b2, h2, hr⟩ := h12.get h1
  obtain ⟨b3x, h3x, hr'⟩ := h23.get h2
  rw [h3x] at h3
  cases h3
  exact ht _ _ _ hr hr'

theorem listRel_set {R : PhysicsObject → PhysicsObject → Prop} (hrefl : ∀ b, R b b)
    {l : List PhysicsObject} {i : ℕ} {a : PhysicsObject}
    (ha : ∀ o, l[i]? = some o → R o a) : ListRel R l (l.set i a) := by
  refine ⟨(List.length_set l i a).symm, fun k b b' h1 h2 => ?_⟩
  rw [List.getElem?_set] at h2
  by_cases hik : i = k
  · subst hik
    by_cases hlt : i < l.length
    · simp only [hlt, if_true, if_pos rfl] at h2
      cases h2
      exact ha b h1
    · simp [hlt] at h2
  · simp only [hik, if_false] at h2
    rw [h1] at h2
    cases h2
    exact hrefl b

theorem listRel_set_set {R : PhysicsObject → PhysicsObject → Prop} (hrefl : ∀ b, R b b)
    {l : List PhysicsObject} {i j : ℕ} {a b : PhysicsObject}
    (ha : ∀ o, l[i]? = some o → R o a) (hb : ∀ o, l[j]? = some o → R o b) :
    ListRel R l ((l.set i a).set j b) := by
  refine ⟨by simp, fun k o o' h1 h2 => ?_⟩
  rw [List.getElem?_set, List.length_set, List.getElem?_set] at h2
  by_cases hjk : j = k
  · subst hjk
    by_cases hlt : j < l.length
    · simp only [hlt, if_true, if_pos rfl] at h2
      cases h2
      exact hb o h1
    · simp [hlt] at h2
  · simp only [hjk, if_false] at h2
    by_cases hik : i = k
    · subst hik
      by_cases hlt : i < l.length
      · simp only [hlt, if_true, if_pos rfl] at h2
        cases h2
        exact ha o h1
      · simp [hlt] at h2
    · simp only [hik, if_false] at h2
      rw [h1] at h2
      cases h2
      exact hrefl o

theorem listRel_map {R : PhysicsObject → PhysicsObject → Prop} {f : PhysicsObject → PhysicsObject}
    (h : ∀ b, R b (f b)) (l : List PhysicsObject) : ListRel R l (l.map f) := by
  refine ⟨(List.length_map l f).symm, fun k b b' h1 h2 => ?_⟩
  rw [List.getElem?_map, h1] at h2
  cases h2
  exact h b

/-- Every constraint's `apply` writes only `position`/`velocity` of the bodies
it references. -/
theorem applyConstraint_kin {sq : ℚ → ℚ} {objs : List PhysicsObject} {c : Constraint}
    {objs' : List PhysicsObject} (h : applyConstraint sq objs c = .ok objs') :
    ListRel KinOnly objs objs' := by
  cases c with
  | floor enabled fy r => exact absurd h (by simp [applyConstraint])
  | fixedPosition enabled i target =>
    simp only [applyConstraint] at h
    split at h
    · cases h; exact listRel_refl kinOnly_refl _
    · split at h
      next o heq =>
        cases h
        refine listRel_set kinOnly_refl (fun o' ho' => ?_)
        rw [heq] at ho'
        cases ho'
        exact ⟨rfl, rfl, rfl, rfl, rfl, rfl, rfl⟩
      next heq => cases h; exact listRel_refl kinOnly_refl _
  | distance enabled i j target =>
    simp only [applyConstraint] at h
    split at h
    · cases h; exact listRel_refl kinOnly_refl _
    · split at h
      next o1 o2 heq1 heq2 =>
        split at h
        · cases h; exact listRel_refl kinOnly_refl _
        · split at h
          · cases h
            refine listRel_set_set kinOnly_refl (fun o ho => ?_) (fun o ho => ?_)
            · rw [heq1] at ho; cases ho; exact ⟨rfl, rfl, rfl, rfl, rfl, rfl, rfl⟩
            · rw [heq2] at ho; cases ho; exact ⟨rfl, rfl, rfl, rfl, rfl, rfl, rfl⟩
          · cases h; exact listRel_refl kinOnly_refl _
      next hne => cases h; exact listRel_refl kinOnly_refl _
  | pinJoint enabled i j pivot d1 d2 =>
    simp only [applyConstraint] at h
    split at h
    · cases h; exact listRel_refl kinOnly_refl _
    · split at h
      next o1 o2 heq1 heq2 =>
        split at h
        · cases h; exact listRel_refl kinOnly_refl _
        · cases h
          refine listRel_set_set kinOnly_refl (fun o ho => ?_) (fun o ho => ?_)
          · rw [heq1] at ho; cases ho; exact ⟨rfl, rfl, rfl, rfl, rfl, rfl, rfl⟩
          · rw [heq2] at ho; cases ho; exact ⟨rfl, rfl, rfl, rfl, rfl, rfl, rfl⟩
      next hne => cases h; exact listRel_refl kinOnly_refl _
  | spring enabled i j k rest_length =>
    simp only [applyConstraint] at h
    split at h
    · cases h; exact listRel_refl kinOnly_refl _
    · split at h
      next o1 o2 heq1 heq2 =>
        split at h
        · cases h; exact listRel_refl kinOnly_refl _
        · by_cases hm1 : o1.mass > 0
          · rw [if_pos hm1] at h
            split at h
            next o2b heqb =>
              split at h
              · cases h
                refine listRel_trans (fun a b c => @kinOnly_trans a b c)
                  (listRel_set kinOnly_refl (fun o ho => ?_))
                  (listRel_set kinOnly_refl (fun o ho => ?_))
                · rw [heq1] at ho; cases ho; exact ⟨rfl, rfl, rfl, rfl, rfl, rfl, rfl⟩
                · rw [heqb] at ho; cases ho; exact ⟨rfl, rfl, rfl, rfl, rfl, rfl, rfl⟩
              · cases h
                refine listRel_set kinOnly_refl (fun o ho => ?_)
                rw [heq1] at ho; cases ho; exact ⟨rfl, rfl, rfl, rfl, rfl, rfl, rfl⟩
            next heqb =>
              cases h
              refine listRel_set kinOnly_refl (fun o ho => ?_)
              rw [heq1] at ho; cases ho; exact ⟨rfl, rfl, rfl, rfl, rfl, rfl, rfl⟩
          · rw [if_neg hm1] at h
            split at h
            next o2b heqb =>
              split at h
              · cases h
                refine listRel_set kinOnly_refl (fun o ho => ?_)
                rw [heqb] at ho; cases ho; exact ⟨rfl, rfl, rfl, rfl, rfl, rfl, rfl⟩
              · cases h; exact listRel_refl kinOnly_refl _
            next heqb => cases h; exact listRel_refl kinOnly_refl _
      next hne => cases h; exact listRel_refl kinOnly_refl _

/-- The constraint loop writes only `position`/`velocity`. -/
theorem runConstraints_kin {sq : ℚ → ℚ} {cs : List Constraint}
    {objs objs' : List PhysicsObject} (h : runConstraints sq cs objs = .ok objs') :
    ListRel KinOnly objs objs' := by
  induction cs generalizing objs with
  | nil => simp only [runConstraints] at h; cases h; exact listRel_refl kinOnly_refl _
  | cons c cs ih =>
    simp only [runConstraints] at h
    split at h
    · cases h
    next objs1 heq =>
      exact listRel_trans (fun a b c => @kinOnly_trans a b c) (applyConstraint_kin heq) (ih h)

/-- Impulse resolution writes only velocities, and writes no field at all of a
body whose effective mass is zeroed. -/
theorem resolve_collision_rel (sq : ℚ → ℚ) (o1 o2 : PhysicsObject) :
    KinOnly o1 (resolve_collision sq o1 o2).1 ∧
    (resolve_collision sq o1 o2).1.position = o1.position ∧
    KinOnly o2 (resolve_collision sq o1 o2).2 ∧
    (resolve_collision sq o1 o2).2.position = o2.position := by
  simp only [resolve_collision]
  repeat' split
  all_goals
    exact ⟨⟨rfl, rfl, rfl, rfl, rfl, rfl, rfl⟩, rfl,
           ⟨rfl, rfl, rfl, rfl, rfl, rfl, rfl⟩, rfl⟩

/-- Positional correction writes only positions and never moves a fixed body. -/
theorem correct_position_overlap_rel {sq : ℚ → ℚ} {o1 o2 : PhysicsObject}
    {r : PhysicsObject × PhysicsObject} (h : correct_position_overlap sq o1 o2 = .ok r) :
    FixRel o1 r.1 ∧ FixRel o2 r.2 := by
  simp only [correct_position_overlap] at h
  split at h
  · cases h; exact ⟨fixRel_refl o1, fixRel_refl o2⟩
  next hnb =>
    split at h
    · split at h
      next hf1 =>
        cases h
        exact ⟨fixRel_refl o1,
               ⟨⟨rfl, rfl, rfl, rfl, rfl, rfl, rfl⟩, fun hf2 => absurd ⟨hf1, hf2⟩ hnb⟩⟩
      next hf1 =>
        split at h
        next hf2 =>
          cases h
          exact ⟨⟨⟨rfl, rfl, rfl, rfl, rfl, rfl, rfl⟩, fun hf1x => absurd hf1x hf1⟩,
                 fixRel_refl o2⟩
        next hf2 =>
          split at h
          · cases h
          · cases h
            exact ⟨⟨⟨rfl, rfl, rfl, rfl, rfl, rfl, rfl⟩, fun hf1x => absurd hf1x hf1⟩,
                   ⟨⟨rfl, rfl, rfl, rfl, rfl, rfl, rfl⟩, fun hf2x => absurd hf2x hf2⟩⟩
    · cases h; exact ⟨fixRel_refl o1, fixRel_refl o2⟩

/-- One pair iteration preserves everything except `position`/`velocity` at
every index and never moves a fixed body. -/
theorem pairStep_rel {sq : ℚ → ℚ} {objs : List PhysicsObject} {p : ℕ × ℕ}
    {objs' : List PhysicsObject} (h : pairStep sq objs p = .ok objs') :
    ListRel FixRel objs objs' := by
  simp only [pairStep] at h
  split at h
  next o1 o2 heq1 heq2 =>
    split at h
    · cases h; exact listRel_refl fixRel_refl _
    · split at h
      · split at h
        · cases h
        next c heqc =>
          cases h
          have hres := resolve_collision_rel sq o1 o2
          have hcor := correct_position_overlap_rel heqc
          refine listRel_set_set fixRel_refl (fun o ho => ?_) (fun o ho => ?_)
          · rw [heq1] at ho; cases ho
            exact fixRel_trans ⟨hres.1, fun _ => hres.2.1⟩ hcor.1
          · rw [heq2] at ho; cases ho
            exact fixRel_trans ⟨hres.2.2.1, fun _ => hres.2.2.2⟩ hcor.2
      · cases h; exact listRel_refl fixRel_refl _
  next hno => cases h; exact listRel_refl fixRel_refl _

/-- The whole pair loop preserves everything except `position`/`velocity` and
never moves a fixed body. -/
theorem runPairs_rel {sq : ℚ → ℚ} {ps : List (ℕ × ℕ)} {objs objs' : List PhysicsObject}
    (h : runPairs sq ps objs = .ok objs') : ListRel FixRel objs objs' := by
  induction ps generalizing objs with
  | nil => simp only [runPairs] at h; cases h; exact listRel_refl fixRel_refl _
  | cons p ps ih =>
    simp only [runPairs] at h
    split at h
    · cases h
    next objs1 heq =>
      exact listRel_trans (fun a b c => @fixRel_trans a b c) (pairStep_rel heq) (ih h)

theorem handleCollisions_rel {sq : ℚ → ℚ} {objs objs' : List PhysicsObject}
    (h : handleCollisions sq objs = .ok objs') : ListRel FixRel objs objs' :=
  runPairs_rel h

/-- The integration loop: fixed bodies are skipped whole, all non-kinematic
fields are preserved, and the acceleration of a body without positive mass is
untouched. -/
theorem integrateBody_rel (g : Vec2) (dt : ℚ) (b : PhysicsObject) :
    (integrateBody g dt b).mass = b.mass ∧ (integrateBody g dt b).fixed = b.fixed ∧
    (integrateBody g dt b).shape = b.shape ∧
    (integrateBody g dt b).no_collision = b.no_collision ∧
    (integrateBody g dt b).restitution = b.restitution ∧
    (integrateBody g dt b).friction = b.friction ∧
    (b.fixed = true → integrateBody g dt b = b) ∧
    (¬ 0 < b.mass → (integrateBody g dt b).acceleration = b.acceleration) := by
  simp only [integrateBody, PhysicsObject.update]
  split
  next hf => exact ⟨rfl, rfl, rfl, rfl, rfl, rfl, fun _ => rfl, fun _ => rfl⟩
  next hf =>
    split
    next hm =>
      exact ⟨rfl, rfl, rfl, rfl, rfl, rfl, fun hfx => absurd hfx hf, fun hmx => absurd hm hmx⟩
    next hm =>
      exact ⟨rfl, rfl, rfl, rfl, rfl, rfl, fun hfx => absurd hfx hf, fun _ => rfl⟩

/-- A full `_update_physics` pass leaves the acceleration, mass and fixed flag
of a body without positive mass untouched: gravity is only added under
`mass > 0`, and no constraint or collision code writes acceleration. -/
theorem updatePhysics_pres_massless {sq : ℚ → ℚ} {dt : ℚ} {s : PhysicsSimulator}
    {objs' : List PhysicsObject} (h : updatePhysics sq dt s = .ok objs')
    {k : ℕ} {b : PhysicsObject} (hb : s.objects[k]? = some b) (hm : ¬ 0 < b.mass) :
    ∃ b', objs'[k]? = some b' ∧ b'.acceleration = b.acceleration ∧
      b'.mass = b.mass ∧ b'.fixed = b.fixed := by
  simp only [updatePhysics] at h
  have hint : (s.objects.map (integrateBody s.gravity dt))[k]? =
      some (integrateBody s.gravity dt b) := by
    rw [List.getElem?_map, hb]; rfl
  have hrel := integrateBody_rel s.gravity dt b
  split at h
  · cases h
  next objs2 heq =>
    obtain ⟨b2, hb2, hk2⟩ := (runConstraints_kin heq).get hint
    have hacc2 : b2.acceleration = b.acceleration :=
      hk2.2.1.trans (hrel.2.2.2.2.2.2.2 hm)
    have hmass2 : b2.mass = b.mass := hk2.1.trans hrel.1
    have hfix2 : b2.fixed = b.fixed := hk2.2.2.1.trans hrel.2.1
    split at h
    · obtain ⟨b3, hb3, hk3⟩ := (handleCollisions_rel h).get hb2
      exact ⟨b3, hb3, hk3.1.2.1.trans hacc2, hk3.1.1.trans hmass2, hk3.1.2.2.1.trans hfix2⟩
    · cases h
      exact ⟨b2, hb2, hacc2, hmass2, hfix2⟩

/-- One `update()` call leaves the acceleration, mass and fixed flag of a body
without positive mass untouched. -/
theorem update_pres_massless {sq : ℚ → ℚ} {t : ℚ} {s : PhysicsSimulator}
    {r : ℚ × PhysicsSimulator} {k : ℕ} {b : PhysicsObject}
    (h : PhysicsSimulator.update sq t s = .ok r) (hb : s.objects[k]? = some b)
    (hm : ¬ 0 < b.mass) :
    ∃ b', r.2.objects[k]? = some b' ∧ b'.acceleration = b.acceleration ∧
      b'.mass = b.mass ∧ b'.fixed = b.fixed := by
  simp only [PhysicsSimulator.update] at h
  split at h
  · cases h; exact ⟨b, hb, rfl, rfl, rfl⟩
  · split at h
    · cases h; exact ⟨b, hb, rfl, rfl, rfl⟩
    next t0 =>
      split at h
      · cases h
      next objs2 heq =>
        cases h
        exact updatePhysics_pres_massless heq hb hm

theorem allPairs_one : allPairs 1 = [] := by decide

theorem allPairs_two : allPairs 2 = [(0, 1)] := by decide

/-! ### Concrete scenarios used by the claim theorems below -/

/-- A `Circle(position, radius, mass)` body with the base-class defaults
`friction = 0.5`, `restitution = 0.7` and no UI-attached flags. -/
def mkCircle (px py r m : ℚ) (fx : Bool) : PhysicsObject :=
  ⟨(px, py), m, (0, 0), (0, 0), 1/2, 7/10, fx, false, .circle r⟩

/-- A `Box(position, (w, h), mass)` body with the base-class defaults. -/
def mkBox (px py w h m : ℚ) (fx : Bool) : PhysicsObject :=
  ⟨(px, py), m, (0, 0), (0, 0), 1/2, 7/10, fx, false, .box w h⟩

/-- A massless `Spring` body (`Spring.__init__` passes `mass = 0`) with the
given midpoint position. -/
def mkSpringBody (px py : ℚ) : PhysicsObject :=
  ⟨(px, py), 0, (0, 0), (0, 0), 1/2, 7/10, false, false, .spring⟩

/-! ### Claim theorems -/

/-- C7: for every body and every `dt`, `advance(dt)` (`PhysicsObject.update` in
the source) performs semi-implicit Euler integration: the new velocity equals
the old velocity plus `acceleration * dt`, the new position equals the old
position plus the NEW velocity times `dt`, and no other field of the body
changes. -/
theorem advance_is_semi_implicit_euler (b : PhysicsObject) (dt : ℚ) :
    (PhysicsObject.update dt b).velocity =
      (b.velocity.1 + b.acceleration.1 * dt, b.velocity.2 + b.acceleration.2 * dt) ∧
    (PhysicsObject.update dt b).position =
      (b.position.1 + (PhysicsObject.update dt b).velocity.1 * dt,
       b.position.2 + (PhysicsObject.update dt b).velocity.2 * dt) ∧
    (PhysicsObject.update dt b).acceleration = b.acceleration ∧
    (PhysicsObject.update dt b).mass = b.mass ∧
    (PhysicsObject.update dt b).friction = b.friction ∧
    (PhysicsObject.update dt b).restitution = b.restitution ∧
    (PhysicsObject.update dt b).fixed = b.fixed ∧
    (PhysicsObject.update dt b).no_collision = b.no_collision ∧
    (PhysicsObject.update dt b).shape = b.shape :=
  ⟨rfl, rfl, rfl, rfl, rfl, rfl, rfl, rfl, rfl⟩

/-- C10: `clearAll()` (`clear_objects` in the source) empties the body list,
resets cumulative `simulation_time` to 0, and leaves gravity, the time scale,
the running flag, the collision-detection flag and the constraint list
unchanged. -/
theorem clear_objects_frame (s : PhysicsSimulator) :
    (PhysicsSimulator.clear_objects s).objects = [] ∧
    (PhysicsSimulator.clear_objects s).simulation_time = 0 ∧
    (PhysicsSimulator.clear_objects s).gravity = s.gravity ∧
    (PhysicsSimulator.clear_objects s).time_scale = s.time_scale ∧
    (PhysicsSimulator.clear_objects s).is_running = s.is_running ∧
    (PhysicsSimulator.clear_objects s).collision_detection_enabled =
      s.collision_detection_enabled ∧
    (PhysicsSimulator.clear_objects s).constraints = s.constraints :=
  ⟨rfl, rfl, rfl, rfl, rfl, rfl, rfl⟩

/-- C3 (code bug): `Triangle.contains_point` divides by `2 * area` with no
zero-area guard, so for every triangle body with collinear vertices (zero
signed area) and every query point, the call raises `ZeroDivisionError`
(modelled by `none`) instead of returning `False` as the claim states. -/
theorem degenerate_triangle_contains_point_raises (b : PhysicsObject)
    (v0 v1 v2 : Vec2) (x y : ℚ) (hshape : b.shape = .triangle v0 v1 v2)
    (harea : triangleArea (b.position.1 + v0.1, b.position.2 + v0.2)
      (b.position.1 + v1.1, b.position.2 + v1.2)
      (b.position.1 + v2.1, b.position.2 + v2.2) = 0) :
    b.contains_point x y = none := by
  simp only [PhysicsObject.contains_point, hshape]
  rw [if_pos harea]

/-- Witness for C3's theorem: the triangle with vertex offsets (0,0), (1,0),
(2,0) — all on the x-axis — makes `contains_point` raise at the origin. -/
def c3tri : PhysicsObject :=
  ⟨(0, 0), 1, (0, 0), (0, 0), 1/2, 7/10, false, false, .triangle (0, 0) (1, 0) (2, 0)⟩

theorem degenerate_triangle_contains_point_raises_witness :
    c3tri.contains_point 0 0 = none :=
  degenerate_triangle_contains_point_raises c3tri (0, 0) (1, 0) (2, 0) 0 0 rfl
    (by norm_num [triangleArea, c3tri])

/-- C6: a body with `mass == 0` and `fixed == false` keeps its acceleration
unchanged across any number of `update()` calls: gravity is only added under
the `mass > 0` guard, and no constraint or collision code writes acceleration. -/
theorem massless_acceleration_invariant {sq : ℚ → ℚ} {ts : List ℚ}
    {s s' : PhysicsSimulator} {k : ℕ} {b : PhysicsObject}
    (h : updateMany sq ts s = .ok s') (hb : s.objects[k]? = some b)
    (hm : b.mass = 0) (hf : b.fixed = false) :
    ∃ b', s'.objects[k]? = some b' ∧ b'.acceleration = b.acceleration ∧
      b'.mass = 0 ∧ b'.fixed = false := by
  induction ts generalizing s b with
  | nil => simp only [updateMany] at h; cases h; exact ⟨b, hb, rfl, hm, hf⟩
  | cons t ts ih =>
    simp only [updateMany] at h
    split at h
    · cases h
    next r heq =>
      have hmlt : ¬ 0 < b.mass := by rw [hm]; exact lt_irrefl 0
      obtain ⟨b1, hb1, ha1, hm1, hf1⟩ := update_pres_massless heq hb hmlt
      obtain ⟨b2, hb2, ha2, hm2, hf2⟩ := ih h hb1 (hm1.trans hm) (hf1.trans hf)
      exact ⟨b2, hb2, ha2.trans ha1, hm2, hf2⟩

/-- Scene for C6's witness: a single massless Spring body, running simulator. -/
def c6sim : PhysicsSimulator :=
  { initSimulator with is_running := true, last_update_time := some 0,
                       objects := [mkSpringBody 0 0] }

/-- The state after `update()` at wall times 1 and 2 from `c6sim`. -/
def c6final : PhysicsSimulator :=
  { c6sim with simulation_time := 2, last_update_time := some 2 }

theorem massless_acceleration_invariant_witness :
    ∃ b', c6final.objects[0]? = some b' ∧ b'.acceleration = (0, 0) ∧
      b'.mass = 0 ∧ b'.fixed = false := by
  have hrun : updateMany sqrtValues [1, 2] c6sim = .ok c6final := by
    norm_num [updateMany, PhysicsSimulator.update, updatePhysics, runConstraints,
      handleCollisions, allPairs_one, runPairs, integrateBody, PhysicsObject.update,
      c6sim, c6final, mkSpringBody, initSimulator]
  exact massless_acceleration_invariant hrun
    (show c6sim.objects[0]? = some (mkSpringBody 0 0) from rfl) rfl rfl

/-- Scene for C2: one unit-mass circle at the origin, default gravity. -/
def c2sim : PhysicsSimulator :=
  { initSimulator with objects := [mkCircle 0 0 (1/2) 1 false] }

/-- C2 (counterexample): `start()` at wall time 0 followed by the first
`update()` at wall time 1 returns `dt = 1` (not 0) and integrates gravity into
the body, moving it from (0,0) to (0,-9.8): the claim's `dt == 0` warm-up call
does not happen, because `start()` itself sets `last_update_time`. -/
theorem first_update_after_start_cex :
    c2sim.objects.map PhysicsObject.position = [(0, 0)] ∧
    (PhysicsSimulator.update sqrtValues 1 (PhysicsSimulator.start 0 c2sim)).toOption.map
        (fun r => (r.1, r.2.objects.map PhysicsObject.position)) =
      some (1, [(0, -49/5)]) := by
  constructor
  · norm_num [c2sim, mkCircle, initSimulator]
  · norm_num [PhysicsSimulator.update, PhysicsSimulator.start, updatePhysics,
      runConstraints, handleCollisions, allPairs_one, runPairs, integrateBody,
      PhysicsObject.update, c2sim, mkCircle, initSimulator, Except.toOption]

/-- C2 (amended): `start()` itself records the wall clock, so the first
`update()` after `start()` performs a full physics step and returns
`dt = (now - startTime) * timeScale`; `update()` takes the return-0,
mutate-nothing branch only when the simulator is stopped or when
`last_update_time` is `None`, and `start()` makes the latter impossible. -/
theorem first_update_after_start_full_step (sq : ℚ → ℚ) (t0 t1 : ℚ)
    (s : PhysicsSimulator) :
    (PhysicsSimulator.start t0 s).last_update_time = some t0 ∧
    (∀ r, PhysicsSimulator.update sq t1 (PhysicsSimulator.start t0 s) = .ok r →
      r.1 = (t1 - t0) * s.time_scale) ∧
    (s.is_running = true → s.last_update_time = none →
      PhysicsSimulator.update sq t1 s = .ok (0, { s with last_update_time := some t1 })) := by
  refine ⟨rfl, fun r h => ?_, fun h1 h2 => ?_⟩
  · simp only [PhysicsSimulator.update, PhysicsSimulator.start] at h
    split at h
    next hc => exact Bool.noConfusion hc
    · split at h
      · cases h
      next objs2 heq => cases h; rfl
  · simp [PhysicsSimulator.update, h1, h2]

/-- Witness for C2's amended theorem: a running simulator whose
`last_update_time` was never set takes the baseline branch. -/
def c2running : PhysicsSimulator := { initSimulator with is_running := true }

theorem first_update_after_start_full_step_witness :
    PhysicsSimulator.update sqrtValues 1 c2running =
      .ok (0, { c2running with last_update_time := some 1 }) :=
  (first_update_after_start_full_step sqrtValues 0 1 c2running).2.2 rfl rfl

/-- Scene for C4's counterexample: a fixed unit-mass box at the origin and a
free unit-mass box at (4,0), joined by a `DistanceConstraint` with target
distance 2 (current distance 4); gravity zeroed so the constraint is the only
effect. -/
def c4sim : PhysicsSimulator :=
  { initSimulator with
      gravity := (0, 0), is_running := true, last_update_time := some 0,
      collision_detection_enabled := false,
      objects := [mkBox 0 0 1 1 1 true, mkBox 4 0 1 1 1 false],
      constraints := [.distance true 0 1 2] }

/-- C4 (counterexample): `DistanceConstraint.apply` splits the correction by
mass ratio and never consults the `fixed` flag, so one `update()` call moves
the fixed box at index 0 from (0,0) to (1/2,0). -/
theorem fixed_body_moved_by_distance_constraint_cex :
    (c4sim.objects[0]?).map PhysicsObject.fixed = some true ∧
    (c4sim.objects[0]?).map PhysicsObject.position = some (0, 0) ∧
    (PhysicsSimulator.update sqrtValues 1 c4sim).toOption.map
        (fun r => r.2.objects.map PhysicsObject.position) = some [(1/2, 0), (7/2, 0)] := by
  refine ⟨rfl, rfl, ?_⟩
  norm_num [PhysicsSimulator.update, updatePhysics, runConstraints, applyConstraint,
    integrateBody, PhysicsObject.update, sqrtValues, c4sim, initSimulator, mkBox,
    Except.toOption]

/-- C4 (amended): during `update()` the integration loop skips a fixed body
entirely and the collision pipeline (impulse resolution and positional
correction) never changes a fixed body's position; the constraint phase,
however, does not consult the `fixed` flag and can move a fixed body, as the
counterexample shows. -/
theorem fixed_body_unmoved_by_integration_and_collisions {sq : ℚ → ℚ} (g : Vec2)
    (dt : ℚ) {objs : List PhysicsObject} {k : ℕ} {b : PhysicsObject}
    (hb : objs[k]? = some b) (hf : b.fixed = true) :
    (objs.map (integrateBody g dt))[k]? = some b ∧
    ∀ objs', handleCollisions sq objs = .ok objs' →
      ∃ b', objs'[k]? = some b' ∧ b'.position = b.position ∧ b'.fixed = true := by
  constructor
  · rw [List.getElem?_map, hb]
    simp [(integrateBody_rel g dt b).2.2.2.2.2.2.1 hf]
  · intro objs' h
    obtain ⟨b', hb', hrel⟩ := (handleCollisions_rel h).get hb
    exact ⟨b', hb', hrel.2 hf, hrel.1.2.2.1.trans hf⟩

/-- Body for C4's witness: a fixed box alone in the scene. -/
def c4fixedBox : PhysicsObject := mkBox 0 0 1 1 1 true

theorem fixed_body_unmoved_by_integration_and_collisions_witness :
    ([c4fixedBox].map (integrateBody (0, -49/5) 1))[0]? = some c4fixedBox ∧
    ∃ b', [c4fixedBox][0]? = some b' ∧ b'.position = c4fixedBox.position ∧
      b'.fixed = true := by
  have h := @fixed_body_unmoved_by_integration_and_collisions sqrtValues (0, -49/5) 1
    [c4fixedBox] 0 c4fixedBox rfl rfl
  refine ⟨h.1, h.2 [c4fixedBox] ?_⟩
  norm_num [handleCollisions, allPairs_one, runPairs]

/-- Bodies for C5: a massless, NOT fixed circle at the origin and a unit-mass
circle just above it falling straight down (both restitution 1/2). -/
def c5o1 : PhysicsObject := ⟨(0, 0), 0, (0, 0), (0, 0), 1/2, 1/2, false, false, .circle (1/2)⟩

def c5o2 : PhysicsObject := ⟨(0, 3/10), 1, (0, -1), (0, 0), 1/2, 1/2, false, false, .circle (1/2)⟩

/-- C5 (counterexample): the massless body is not flagged fixed, yet
`_resolve_collision` leaves it untouched and gives the free body the full
immovable-obstacle impulse: its velocity flips from (0,-1) to (0,1/2)
(`Δv = (1+e)·|vn| = 1.5` with `e = 1/2`), exactly the one-sided behavior the
claim reserves for explicitly fixed bodies. -/
theorem massless_one_sided_without_fixed_cex :
    c5o1.mass = 0 ∧ c5o1.fixed = false ∧
    (resolve_collision sqrtValues c5o1 c5o2).1 = c5o1 ∧
    (resolve_collision sqrtValues c5o1 c5o2).2.velocity = (0, 1/2) := by
  refine ⟨rfl, rfl, ?_, ?_⟩ <;>
    norm_num [resolve_collision, get_collision_normal, sqrtValues, c5o1, c5o2,
      PhysicsObject.hasWidthHeight, PhysicsObject.hasRadius]

/-- C5 (amended): in `_resolve_collision` a body with `mass == 0` never has its
velocity changed, and it acts as a one-sided immovable collider regardless of
its `fixed` flag: whenever the other body is free with positive mass and the
pair is not separating, the other body receives the full impulse
`-(1+e)·vn·m / m` along the normal, as if it hit an immovable obstacle.  The
first conjunct covers the massless body being the first of the pair (the
source's `m1 <= 0` branch), the second covers it being the second (the
`m2 <= 0` branch, with the free body's velocity decremented). -/
theorem massless_never_receives_impulse (sq : ℚ → ℚ) (o1 o2 : PhysicsObject) :
    (o1.mass = 0 →
      (resolve_collision sq o1 o2).1.velocity = o1.velocity ∧
      ((o2.velocity.1 - o1.velocity.1) * (get_collision_normal sq o1 o2).1 +
          (o2.velocity.2 - o1.velocity.2) * (get_collision_normal sq o1 o2).2 ≤ 0 →
        o2.fixed = false → 0 < o2.mass →
        (resolve_collision sq o1 o2).2.velocity =
          (o2.velocity.1 + -(1 + min o1.restitution o2.restitution) *
              ((o2.velocity.1 - o1.velocity.1) * (get_collision_normal sq o1 o2).1 +
                (o2.velocity.2 - o1.velocity.2) * (get_collision_normal sq o1 o2).2) *
              o2.mass * (get_collision_normal sq o1 o2).1 / o2.mass,
           o2.velocity.2 + -(1 + min o1.restitution o2.restitution) *
              ((o2.velocity.1 - o1.velocity.1) * (get_collision_normal sq o1 o2).1 +
                (o2.velocity.2 - o1.velocity.2) * (get_collision_normal sq o1 o2).2) *
              o2.mass * (get_collision_normal sq o1 o2).2 / o2.mass))) ∧
    (o2.mass = 0 →
      (resolve_collision sq o1 o2).2.velocity = o2.velocity ∧
      ((o2.velocity.1 - o1.velocity.1) * (get_collision_normal sq o1 o2).1 +
          (o2.velocity.2 - o1.velocity.2) * (get_collision_normal sq o1 o2).2 ≤ 0 →
        o1.fixed = false → 0 < o1.mass →
        (resolve_collision sq o1 o2).1.velocity =
          (o1.velocity.1 - -(1 + min o1.restitution o2.restitution) *
              ((o2.velocity.1 - o1.velocity.1) * (get_collision_normal sq o1 o2).1 +
                (o2.velocity.2 - o1.velocity.2) * (get_collision_normal sq o1 o2).2) *
              o1.mass * (get_collision_normal sq o1 o2).1 / o1.mass,
           o1.velocity.2 - -(1 + min o1.restitution o2.restitution) *
              ((o2.velocity.1 - o1.velocity.1) * (get_collision_normal sq o1 o2).1 +
                (o2.velocity.2 - o1.velocity.2) * (get_collision_normal sq o1 o2).2) *
              o1.mass * (get_collision_normal sq o1 o2).2 / o1.mass))) := by
  constructor
  · intro h1
    constructor
    · simp only [resolve_collision, h1, ite_self]
      repeat' split
      all_goals first | rfl | simp_all
    · intro hvn hf2 hm2
      have hm2e : (if o2.fixed = true then (0:ℚ) else o2.mass) = o2.mass := by
        rw [hf2]; simp
      simp only [resolve_collision, h1, ite_self, hm2e]
      rw [if_neg (not_lt.mpr hvn)]
      rw [if_neg (fun hand => absurd hand.2 (not_le.mpr hm2))]
      rw [if_pos le_rfl]
  · intro h2
    have hm2e : (if o2.fixed = true then (0:ℚ) else o2.mass) = 0 := by
      rw [h2]; simp
    constructor
    · simp only [resolve_collision, hm2e]
      repeat' split
      all_goals first | rfl | simp_all
    · intro hvn hf1 hm1
      have hm1e : (if o1.fixed = true then (0:ℚ) else o1.mass) = o1.mass := by
        rw [hf1]; simp
      simp only [resolve_collision, hm1e, hm2e]
      rw [if_neg (not_lt.mpr hvn)]
      rw [if_neg (fun hand => absurd hand.1 (not_le.mpr hm1))]
      rw [if_neg (not_le.mpr hm1)]
      rw [if_pos le_rfl]

/-- Witness for C5's amended theorem, exercising both orientations with the
same two bodies: massless first (`c5o1, c5o2`) and massless second (the same
pair swapped, `c5o2, c5o1`); in both the massless body's velocity stays (0,0)
and the free body's velocity flips from (0,-1) to (0,1/2). -/
theorem massless_never_receives_impulse_witness :
    c5o1.mass = 0 ∧ (resolve_collision sqrtValues c5o1 c5o2).1.velocity = (0, 0) ∧
    (resolve_collision sqrtValues c5o1 c5o2).2.velocity = (0, 1/2) ∧
    (resolve_collision sqrtValues c5o2 c5o1).2.velocity = (0, 0) ∧
    (resolve_collision sqrtValues c5o2 c5o1).1.velocity = (0, 1/2) := by
  have hn : get_collision_normal sqrtValues c5o1 c5o2 = (0, 1) := by
    norm_num [get_collision_normal, sqrtValues, c5o1, c5o2, PhysicsObject.hasWidthHeight]
  have hn2 : get_collision_normal sqrtValues c5o2 c5o1 = (0, -1) := by
    norm_num [get_collision_normal, sqrtValues, c5o1, c5o2, PhysicsObject.hasWidthHeight]
  have h := massless_never_receives_impulse sqrtValues c5o1 c5o2
  have hswap := massless_never_receives_impulse sqrtValues c5o2 c5o1
  refine ⟨rfl, (h.1 rfl).1, ?_, (hswap.2 rfl).1, ?_⟩
  · have h2 := (h.1 rfl).2 (by rw [hn]; norm_num [c5o1, c5o2]) rfl (by norm_num [c5o2])
    rw [h2, hn]
    norm_num [c5o1, c5o2]
  · have h2 := (hswap.2 rfl).2 (by rw [hn2]; norm_num [c5o1, c5o2]) rfl (by norm_num [c5o2])
    rw [h2, hn2]
    norm_num [c5o1, c5o2]

/-- C8: a Distance constraint with target `d` applied to two bodies of equal
positive mass `m` currently at distance `2d` moves each body by exactly
`(dx, dy)/8` — equal and opposite displacements, half the relative correction
each — and the new squared distance is `(3d/2)²`, with `3d/2` strictly closer
to `d` than the old distance `2d` is.  The `sq` hypothesis pins the square-root
oracle to the true distance `2d` at the one point where the code consults it. -/
theorem distance_constraint_equal_mass_step (sq : ℚ → ℚ) (o1 o2 : PhysicsObject)
    (d m : ℚ) (hm1 : o1.mass = m) (hm2 : o2.mass = m) (hmpos : 0 < m) (hd : 0 < d)
    (hsq : sq ((o2.position.1 - o1.position.1) * (o2.position.1 - o1.position.1) +
        (o2.position.2 - o1.position.2) * (o2.position.2 - o1.position.2)) = 2 * d)
    (hdist : (o2.position.1 - o1.position.1) * (o2.position.1 - o1.position.1) +
        (o2.position.2 - o1.position.2) * (o2.position.2 - o1.position.2) =
        (2 * d) * (2 * d)) :
    applyConstraint sq [o1, o2] (.distance true 0 1 d) =
      .ok [{ o1 with position := (o1.position.1 + (o2.position.1 - o1.position.1) / 8,
                                  o1.position.2 + (o2.position.2 - o1.position.2) / 8) },
           { o2 with position := (o2.position.1 - (o2.position.1 - o1.position.1) / 8,
                                  o2.position.2 - (o2.position.2 - o1.position.2) / 8) }] ∧
    |(3 / 2) * d - d| < |2 * d - d| ∧
    ((o2.position.1 - (o2.position.1 - o1.position.1) / 8) -
        (o1.position.1 + (o2.position.1 - o1.position.1) / 8)) *
      ((o2.position.1 - (o2.position.1 - o1.position.1) / 8) -
        (o1.position.1 + (o2.position.1 - o1.position.1) / 8)) +
    ((o2.position.2 - (o2.position.2 - o1.position.2) / 8) -
        (o1.position.2 + (o2.position.2 - o1.position.2) / 8)) *
      ((o2.position.2 - (o2.position.2 - o1.position.2) / 8) -
        (o1.position.2 + (o2.position.2 - o1.position.2) / 8)) =
      ((3 / 2) * d) * ((3 / 2) * d) := by
  have hdne : (2 : ℚ) * d ≠ 0 := by positivity
  have hmne : m ≠ 0 := hmpos.ne'
  have hmm : (0 : ℚ) < m + m := by linarith
  refine ⟨?_, ?_, ?_⟩
  · simp only [applyConstraint]
    rw [if_neg (by simp)]
    simp only [List.getElem?_cons_zero, List.getElem?_cons_succ]
    rw [hsq, if_neg hdne, hm1, hm2, if_pos hmm]
    simp only [List.set]
    refine congrArg Except.ok ?_
    refine List.cons_eq_cons.mpr ⟨?_, List.cons_eq_cons.mpr ⟨?_, rfl⟩⟩
    · have hx : o1.position.1 - (o2.position.1 - o1.position.1) *
          ((d - 2 * d) / (2 * d)) * (1 / 2) * (m / (m + m)) =
          o1.position.1 + (o2.position.1 - o1.position.1) / 8 := by
        field_simp
        ring
      have hy : o1.position.2 - (o2.position.2 - o1.position.2) *
          ((d - 2 * d) / (2 * d)) * (1 / 2) * (m / (m + m)) =
          o1.position.2 + (o2.position.2 - o1.position.2) / 8 := by
        field_simp
        ring
      rw [show ((o1.position.1 - (o2.position.1 - o1.position.1) *
          ((d - 2 * d) / (2 * d)) * (1 / 2) * (m / (m + m)),
          o1.position.2 - (o2.position.2 - o1.position.2) *
          ((d - 2 * d) / (2 * d)) * (1 / 2) * (m / (m + m))) : Vec2) =
          (o1.position.1 + (o2.position.1 - o1.position.1) / 8,
           o1.position.2 + (o2.position.2 - o1.position.2) / 8) from by rw [hx, hy]]
    · have hx : o2.position.1 + (o2.position.1 - o1.position.1) *
          ((d - 2 * d) / (2 * d)) * (1 / 2) * (m / (m + m)) =
          o2.position.1 - (o2.position.1 - o1.position.1) / 8 := by
        field_simp
        ring
      have hy : o2.position.2 + (o2.position.2 - o1.position.2) *
          ((d - 2 * d) / (2 * d)) * (1 / 2) * (m / (m + m)) =
          o2.position.2 - (o2.position.2 - o1.position.2) / 8 := by
        field_simp
        ring
      rw [show ((o2.position.1 + (o2.position.1 - o1.position.1) *
          ((d - 2 * d) / (2 * d)) * (1 / 2) * (m / (m + m)),
          o2.position.2 + (o2.position.2 - o1.position.2) *
          ((d - 2 * d) / (2 * d)) * (1 / 2) * (m / (m + m))) : Vec2) =
          (o2.position.1 - (o2.position.1 - o1.position.1) / 8,
           o2.position.2 - (o2.position.2 - o1.position.2) / 8) from by rw [hx, hy]]
  · rw [abs_of_pos (by linarith), abs_of_pos (by linarith)]
    linarith
  · linear_combination ((9 : ℚ) / 16) * hdist

/-- Bodies for C8's witness: two unit-mass circles on the x-axis at distance 2,
constrained to target distance 1. -/
def c8o1 : PhysicsObject := mkCircle 0 0 (1/2) 1 false

def c8o2 : PhysicsObject := mkCircle 2 0 (1/2) 1 false

theorem distance_constraint_equal_mass_step_witness :
    (applyConstraint sqrtValues [c8o1, c8o2] (.distance true 0 1 1)).toOption.map
        (List.map PhysicsObject.position) = some [(1/4, 0), (7/4, 0)] := by
  have h := distance_constraint_equal_mass_step sqrtValues c8o1 c8o2 1 1 rfl rfl
    (by norm_num) (by norm_num) (by norm_num [sqrtValues, c8o1, c8o2, mkCircle])
    (by norm_num [c8o1, c8o2, mkCircle])
  rw [h.1]
  norm_num [c8o1, c8o2, mkCircle, Except.toOption]

/-- Bodies and scene for C9's counterexample: a containing circle added first,
then a zero-area triangle added on top of it. -/
def c9circle : PhysicsObject := mkCircle 0 0 1 1 false

def c9tri : PhysicsObject :=
  ⟨(0, 0), 1, (0, 0), (0, 0), 1/2, 7/10, false, false, .triangle (0, 0) (1, 0) (2, 0)⟩

def c9sim : PhysicsSimulator := { initSimulator with objects := [c9circle, c9tri] }

/-- C9 (counterexample): the circle contains the query point (0,0), so the
claim says `get_object_at` returns it; but the scan first evaluates the
degenerate triangle's `contains_point`, which raises `ZeroDivisionError`, so
the whole call raises instead of returning the circle. -/
theorem get_object_at_raises_cex :
    c9circle.contains_point 0 0 = some true ∧
    PhysicsSimulator.get_object_at c9sim 0 0 = .error () := by
  constructor
  · norm_num [PhysicsObject.contains_point, c9circle, mkCircle]
  · norm_num [PhysicsSimulator.get_object_at, getObjectAtAux, c9sim, c9circle, c9tri,
      mkCircle, initSimulator, PhysicsObject.contains_point, triangleArea]

/-- C9 (amended): whenever every `contains_point` evaluation in the scan
returns normally (in particular, when no zero-area Triangle or zero-width Ramp
is in the list), `get_object_at` returns the most-recently-added body whose
`containsPoint` holds, and `None` when no body contains the point; the
embedding is pure, so the call mutates nothing. -/
theorem get_object_at_returns_topmost (s : PhysicsSimulator) (x y : ℚ)
    (h : ∀ o ∈ s.objects, (o.contains_point x y).isSome = true) :
    PhysicsSimulator.get_object_at s x y = .ok (topmostContaining s.objects x y) := by
  have haux : ∀ l : List PhysicsObject, (∀ o ∈ l, (o.contains_point x y).isSome = true) →
      getObjectAtAux x y l = .ok (l.find? fun o => o.contains_point x y == some true) := by
    intro l
    induction l with
    | nil => intro hx; rfl
    | cons o rest ih =>
      intro hall
      have ho := hall o (List.mem_cons_self o rest)
      simp only [getObjectAtAux, List.find?_cons]
      cases hco : o.contains_point x y with
      | none => rw [hco] at ho; simp at ho
      | some bv =>
        cases bv with
        | true => simp
        | false =>
          simp only [show ((some false == some true) = false) from rfl]
          exact ih fun o2 ho2 => hall o2 (List.mem_cons_of_mem o ho2)
  exact haux s.objects.reverse fun o ho => h o (List.mem_reverse.mp ho)

/-- Scene for C9's witness: just the containing circle. -/
def c9okSim : PhysicsSimulator := { initSimulator with objects := [c9circle] }

theorem get_object_at_returns_topmost_witness :
    PhysicsSimulator.get_object_at c9okSim 0 0 = .ok (some c9circle) := by
  have hcp : c9circle.contains_point 0 0 = some true := by
    norm_num [PhysicsObject.contains_point, c9circle, mkCircle]
  have hall : ∀ o ∈ c9okSim.objects, (o.contains_point 0 0).isSome = true := by
    intro o ho
    have : o = c9circle := by simpa [c9okSim, initSimulator] using ho
    subst this
    rw [hcp]
    rfl
  rw [get_object_at_returns_topmost c9okSim 0 0 hall]
  norm_num [topmostContaining, c9okSim, initSimulator, hcp]

/-- Scene for C1: a running simulator whose constraint list holds an enabled
FloorConstraint and nothing else. -/
def c1floorSim : PhysicsSimulator :=
  { initSimulator with is_running := true, last_update_time := some 0,
                       constraints := [.floor true 0 (1/2)] }

/-- Scene for C1: two massless, non-fixed Spring bodies whose midpoints are
within the heuristic overlap distance. -/
def c1springSim : PhysicsSimulator :=
  { initSimulator with is_running := true, last_update_time := some 0,
                       objects := [mkSpringBody 0 0, mkSpringBody (1/10) 0] }

/-- C1 (code bug): a normal `update()` step can raise.  With a FloorConstraint
in the constraint list the step raises `TypeError` (the simulator calls
`constraint.apply()` with no arguments, but `FloorConstraint.apply` requires
`objects`, breaking the base class's `apply(self)` interface); with two
overlapping non-fixed massless bodies, `_correct_position_overlap` divides by
`total_mass == 0` and raises `ZeroDivisionError`. -/
theorem update_step_can_raise :
    PhysicsSimulator.update sqrtValues 1 c1floorSim = .error () ∧
    PhysicsSimulator.update sqrtValues 1 c1springSim = .error () := by
  constructor
  · norm_num [PhysicsSimulator.update, updatePhysics, runConstraints, applyConstraint,
      integrateBody, PhysicsObject.update, c1floorSim, initSimulator]
  · norm_num [PhysicsSimulator.update, updatePhysics, runConstraints, handleCollisions,
      allPairs_two, runPairs, pairStep, check_collision, resolve_collision,
      correct_position_overlap, overlapAmount, get_collision_normal,
      PhysicsObject.get_bounding_box, PhysicsObject.hasRadius,
      PhysicsObject.hasWidthHeight, PhysicsObject.radius, PhysicsObject.widthHeight,
      integrateBody, PhysicsObject.update, sqrtValues, c1springSim, mkSpringBody,
      initSimulator]

end Physic
